import Mathlib

/-!
Shallow embedding of the q4k-backend gig / session ledger core
(src/gigs/models.py, src/gigs/serializers.py, src/gigs/views.py).

Conventions of the embedding:
* Python `Decimal` hour and money values are embedded as exact rationals
  (`ℚ`); addition, subtraction and comparison of `Decimal` are exact, so
  the ledger arithmetic is represented faithfully.  `round(x, 2)` on
  `Decimal` uses ROUND_HALF_EVEN, embedded as `round2` below.
* Dates and datetimes are integer day / minute numbers (`ℤ`); only their
  ordering is ever used by the code under verification.
* Python truthiness of a `Decimal` (`if self.total_hours and ...`) is
  falsity exactly when the value is zero; it is embedded as `≠ 0` tests.
* A Django / DRF rejection (ValidationError, 4xx response) is embedded as
  `Except.error`: the backing store is not mutated on a rejected request,
  so an `Except.error` result means the caller keeps the old state.
* `save()` calls run the model `clean()` validation; `Except.ok` carries
  the persisted new state.
-/

attribute [local semireducible] Rat.sub Rat.add Rat.mul Rat.inv Rat.ofScientific

namespace Q4K

/-- Round a rational to the nearest integer, ties to even
(Python `Decimal` ROUND_HALF_EVEN). -/
def roundHalfEven (q : ℚ) : ℤ :=
  let f : ℤ := ⌊q⌋
  let r : ℚ := q - f
  if r < 1/2 then f
  else if r > 1/2 then f + 1
  else if f % 2 = 0 then f else f + 1

/-- `round(x, 2)` on Python Decimals: round half-even at two decimal places. -/
def round2 (q : ℚ) : ℚ := (roundHalfEven (q * 100) : ℚ) / 100

/-- gigs/models.py `Gig.STATUS_CHOICES`. -/
inductive GigStatus
  | pending
  | active
  | on_hold
  | completed
  | cancelled
  | expired
deriving DecidableEq, Repr

/-- tutors/models.py `Tutor`: the fields gig assignment depends on. -/
structure Tutor where
  full_name : String
  is_active : Bool
  is_blocked : Bool
deriving DecidableEq, Repr

/-- gigs/models.py `Gig`: the fields used by the ledger, the lifecycle
operations and the reporting properties. -/
structure Gig where
  tutor : Option Tutor
  total_tutor_remuneration : ℚ
  total_client_fee : ℚ
  total_hours : ℚ
  total_hours_remaining : ℚ
  status : GigStatus
  start_date : ℤ
  end_date : ℤ
  actual_start_date : Option ℤ
  actual_end_date : Option ℤ
  notes : String
deriving DecidableEq, Repr

/-- `Gig.hours_completed` (models.py): `if self.total_hours and
self.total_hours_remaining: return self.total_hours -
self.total_hours_remaining; return 0`.  Note the guard uses Decimal
truthiness, so a zero `total_hours_remaining` falls through to `0`. -/
def Gig.hours_completed (g : Gig) : ℚ :=
  if g.total_hours ≠ 0 ∧ g.total_hours_remaining ≠ 0 then
    g.total_hours - g.total_hours_remaining
  else 0

/-- `Gig.completion_percentage` (models.py): `round((completed /
self.total_hours) * 100, 2)` guarded by `if self.total_hours and
self.total_hours > 0`. -/
def Gig.completion_percentage (g : Gig) : ℚ :=
  if g.total_hours ≠ 0 ∧ 0 < g.total_hours then
    round2 (g.hours_completed / g.total_hours * 100)
  else 0

/-- `Gig.hourly_rate_tutor` (models.py). -/
def Gig.hourly_rate_tutor (g : Gig) : ℚ :=
  if g.total_hours ≠ 0 ∧ 0 < g.total_hours then
    round2 (g.total_tutor_remuneration / g.total_hours)
  else 0

/-- `Gig.hourly_rate_client` (models.py). -/
def Gig.hourly_rate_client (g : Gig) : ℚ :=
  if g.total_hours ≠ 0 ∧ 0 < g.total_hours then
    round2 (g.total_client_fee / g.total_hours)
  else 0

/-- `Gig.profit_margin` (models.py): guarded by Decimal truthiness of both
money fields. -/
def Gig.profit_margin (g : Gig) : ℚ :=
  if g.total_client_fee ≠ 0 ∧ g.total_tutor_remuneration ≠ 0 then
    g.total_client_fee - g.total_tutor_remuneration
  else 0

/-- `Gig.profit_percentage` (models.py). -/
def Gig.profit_percentage (g : Gig) : ℚ :=
  if g.total_client_fee ≠ 0 ∧ 0 < g.total_client_fee then
    round2 (g.profit_margin / g.total_client_fee * 100)
  else 0

/-- `Gig.is_overdue` (models.py): `self.status == 'active' and
self.end_date` (a date is always truthy) `and timezone.now().date() >
self.end_date`.  `today` stands for `timezone.now().date()`. -/
def Gig.is_overdue (g : Gig) (today : ℤ) : Bool :=
  g.status = GigStatus.active && decide (today > g.end_date)

/-- `Gig.clean` (models.py): true when every validation passes.  The four
checks are hours-remaining bound, fee vs remuneration, planned date order
and actual date order. -/
def Gig.cleanOk (g : Gig) : Bool :=
  !(decide (g.total_hours_remaining > g.total_hours)) &&
  !(decide (g.total_client_fee < g.total_tutor_remuneration)) &&
  !(decide (g.start_date > g.end_date)) &&
  (match g.actual_start_date, g.actual_end_date with
   | some a, some b => !(decide (a > b))
   | _, _ => true)

/-- `Gig.save` (models.py): runs `clean()` and persists, or raises
ValidationError. -/
def Gig.save (g : Gig) : Except String Gig :=
  if g.cleanOk then Except.ok g else Except.error "ValidationError"

/-- `Gig.start_gig` (models.py): no-op unless pending. -/
def Gig.start_gig (g : Gig) (today : ℤ) : Except String Gig :=
  if g.status = GigStatus.pending then
    Gig.save { g with status := GigStatus.active, actual_start_date := some today }
  else Except.ok g

/-- `Gig.complete_gig` (models.py): no-op unless active / on hold; forces
the remaining-hours ledger to zero. -/
def Gig.complete_gig (g : Gig) (today : ℤ) : Except String Gig :=
  if g.status = GigStatus.active ∨ g.status = GigStatus.on_hold then
    Gig.save { g with
      status := GigStatus.completed, actual_end_date := some today,
      total_hours_remaining := 0 }
  else Except.ok g

/-- `Gig.cancel_gig` (models.py): unconditional in the model; `ts` stands
for the formatted timestamp string. -/
def Gig.cancel_gig (g : Gig) (reason ts : String) : Except String Gig :=
  Gig.save { g with
    status := GigStatus.cancelled,
    notes := if reason ≠ "" then
        g.notes ++ ("\n[" ++ ts ++ "] Cancellation reason: " ++ reason)
      else g.notes }

/-- `Gig.put_on_hold` (models.py): no-op unless active. -/
def Gig.put_on_hold (g : Gig) (reason ts : String) : Except String Gig :=
  if g.status = GigStatus.active then
    Gig.save { g with
      status := GigStatus.on_hold,
      notes := if reason ≠ "" then
          g.notes ++ ("\n[" ++ ts ++ "] Put on hold: " ++ reason)
        else g.notes }
  else Except.ok g

/-- `Gig.resume_gig` (models.py): no-op unless on hold. -/
def Gig.resume_gig (g : Gig) (ts : String) : Except String Gig :=
  if g.status = GigStatus.on_hold then
    Gig.save { g with
      status := GigStatus.active,
      notes := g.notes ++ ("\n[" ++ ts ++ "] Resumed from hold") }
  else Except.ok g

/-- views.py `start_gig`: rejects non-pending and unassigned gigs, then
delegates to the model method. -/
def startGigView (g : Gig) (today : ℤ) : Except String Gig :=
  if g.status ≠ GigStatus.pending then
    Except.error "Cannot start gig with status"
  else if g.tutor.isNone then
    Except.error "Cannot start unassigned gig"
  else g.start_gig today

/-- views.py `complete_gig`: rejects unless active / on hold. -/
def completeGigView (g : Gig) (today : ℤ) : Except String Gig :=
  if ¬ (g.status = GigStatus.active ∨ g.status = GigStatus.on_hold) then
    Except.error "Cannot complete gig with status"
  else g.complete_gig today

/-- views.py `cancel_gig`: rejects if already completed / cancelled.
`reason` is the request reason after the view-level defaulting. -/
def cancelGigView (g : Gig) (reason ts : String) : Except String Gig :=
  if g.status = GigStatus.completed ∨ g.status = GigStatus.cancelled then
    Except.error "Cannot cancel gig with status"
  else g.cancel_gig reason ts

/-- views.py `hold_gig`: rejects unless active. -/
def holdGigView (g : Gig) (reason ts : String) : Except String Gig :=
  if g.status ≠ GigStatus.active then
    Except.error "Cannot put gig on hold with status"
  else g.put_on_hold reason ts

/-- views.py `resume_gig`: rejects unless on hold. -/
def resumeGigView (g : Gig) (ts : String) : Except String Gig :=
  if g.status ≠ GigStatus.on_hold then
    Except.error "Cannot resume gig with status"
  else g.resume_gig ts

/-- views.py `adjust_gig_hours` with serializers.py
`GigHoursAdjustmentSerializer`: the field enforces a 0.25 minimum and
`validate_hours_to_subtract` rejects amounts above the remaining hours. -/
def adjustGigHoursView (g : Gig) (hours_to_subtract : ℚ) (reason ts : String) :
    Except String Gig :=
  if hours_to_subtract < 1/4 then
    Except.error "Ensure this value is greater than or equal to 0.25."
  else if hours_to_subtract > g.total_hours_remaining then
    Except.error "Cannot subtract: not enough hours remaining."
  else
    Gig.save { g with
      total_hours_remaining := g.total_hours_remaining - hours_to_subtract,
      notes := g.notes ++ ("\n[" ++ ts ++ "] Manual hours adjustment. Reason: " ++ reason) }

/-- serializers.py `GigAssignmentSerializer.validate_tutor_id`: the tutor
must exist, be active and not blocked.  `tutors` is the tutor table. -/
def validateTutorId (tutors : Nat → Option Tutor) (tid : Nat) : Except String Nat :=
  match tutors tid with
  | none => Except.error "Tutor not found."
  | some t =>
    if !t.is_active then Except.error "Cannot assign gig to inactive tutor."
    else if t.is_blocked then Except.error "Cannot assign gig to blocked tutor."
    else Except.ok tid

/-- views.py `assign_gig`: no unassigned-gig and no status precondition; an
already-assigned gig is reassigned.  The two Python `+=` concatenations on
`notes` are combined into one appended suffix (the resulting string is
identical). -/
def assignGigView (tutors : Nat → Option Tutor) (g : Gig) (tid : Nat)
    (note ts : String) : Except String Gig :=
  match validateTutorId tutors tid with
  | Except.error e => Except.error e
  | Except.ok _ =>
    match tutors tid with
    | none => Except.error "Tutor not found."
    | some t =>
      let is_reassignment := g.tutor.isSome
      let old_tutor_name := match g.tutor with
        | some ot => ot.full_name
        | none => ""
      let tag := if is_reassignment then
          "Reassigned from " ++ old_tutor_name ++ " to " ++ t.full_name
        else "Assigned to " ++ t.full_name
      let note_suffix := "\n[" ++ ts ++ "] " ++ tag ++
        (if note ≠ "" then ": " ++ note else "")
      Gig.save { g with
        tutor := some t, notes := g.notes ++ note_suffix }

/-- views.py `unassign_gig`: rejects when unassigned or active. -/
def unassignGigView (g : Gig) (reason ts : String) : Except String Gig :=
  if g.tutor.isNone then Except.error "Gig is not currently assigned"
  else if g.status = GigStatus.active then Except.error "Cannot unassign active gig"
  else
    let old_tutor_name := match g.tutor with
      | some ot => ot.full_name
      | none => ""
    Gig.save { g with
      tutor := none,
      notes := if reason ≠ "" then
          g.notes ++ ("\n[" ++ ts ++ "] Unassigned from " ++ old_tutor_name ++ ": " ++ reason)
        else g.notes }

/-- gigs/models.py `GigSession`: one logged tutoring occurrence.  Times of
day are rationals (only ordering is used); `verified_by` is a user id and
`verified_at` a timestamp. -/
structure GigSession where
  session_date : ℤ
  start_time : ℚ
  end_time : ℚ
  hours_logged : ℚ
  session_notes : String
  student_attendance : Bool
  is_verified : Bool
  verified_by : Option Nat
  verified_at : Option ℤ
deriving DecidableEq, Repr

/-- `GigSession.save` (models.py): persists the session and performs the
exactly-once ledger adjustment on the parent gig.  `old` is the previously
stored row for this pk (`none` when the row is new, mirroring
`is_new = self.pk is None` and the `old_session` lookup); the branch
structure mirrors the source: subtract on new-verified, adjust by the
difference on verified-edit, subtract on just-verified, add back on
just-unverified.  The session row and the gig row are treated as one
atomic transaction. -/
def GigSession.saveWith (old : Option GigSession) (s : GigSession) (g : Gig) :
    Except String (GigSession × Gig) :=
  let is_new := old.isNone
  let old_verified := match old with
    | some o => o.is_verified
    | none => false
  let old_hours : ℚ := match old with
    | some o => o.hours_logged
    | none => 0
  if s.start_time ≥ s.end_time then
    Except.error "Start time must be before end time."
  else if s.is_verified then
    if is_new && !old_verified then
      (Gig.save { g with total_hours_remaining := g.total_hours_remaining - s.hours_logged }).map
        (fun g2 => (s, g2))
    else if !is_new && old_verified && decide (old_hours ≠ s.hours_logged) then
      (Gig.save { g with
          total_hours_remaining := g.total_hours_remaining - (s.hours_logged - old_hours) }).map
        (fun g2 => (s, g2))
    else if !is_new && !old_verified then
      (Gig.save { g with total_hours_remaining := g.total_hours_remaining - s.hours_logged }).map
        (fun g2 => (s, g2))
    else Except.ok (s, g)
  else if !s.is_verified && old_verified then
    (Gig.save { g with total_hours_remaining := g.total_hours_remaining + s.hours_logged }).map
      (fun g2 => (s, g2))
  else Except.ok (s, g)

/-- `GigSession.verify` (models.py): sets the verification sub-record and
saves; returns `false` (a no-op) when already verified. -/
def GigSession.verify (s : GigSession) (user : Nat) (now : ℤ) (g : Gig) :
    Except String (Bool × GigSession × Gig) :=
  if !s.is_verified then
    match GigSession.saveWith (some s)
        { s with is_verified := true, verified_by := some user, verified_at := some now } g with
    | Except.error e => Except.error e
    | Except.ok (s2, g2) => Except.ok (true, s2, g2)
  else Except.ok (false, s, g)

/-- `GigSession.unverify` (models.py): clears the verification sub-record
and saves; returns `false` (a no-op) when not verified. -/
def GigSession.unverify (s : GigSession) (g : Gig) :
    Except String (Bool × GigSession × Gig) :=
  if s.is_verified then
    match GigSession.saveWith (some s)
        { s with is_verified := false, verified_by := none, verified_at := none } g with
    | Except.error e => Except.error e
    | Except.ok (s2, g2) => Except.ok (true, s2, g2)
  else Except.ok (false, s, g)

/-- The writable payload of the session serializers: the verification
sub-record is in `read_only_fields` of `GigSessionSerializer` and is
therefore absent here. -/
structure SessionInput where
  session_date : ℤ
  start_time : ℚ
  end_time : ℚ
  hours_logged : ℚ
  session_notes : String
  student_attendance : Bool
deriving DecidableEq, Repr

/-- serializers.py `GigSessionSerializer.validate` together with the
`hours_logged` field validator inherited from the model
(`MinValueValidator(Decimal(0.25))`).  The `hours_logged ≠ 0 ∧`
conjuncts mirror the `if hours_logged and ...` truthiness guards. -/
def validateSessionPayload (today : ℤ) (a : SessionInput) : Except String SessionInput :=
  if a.hours_logged < 1/4 then
    Except.error "Ensure this value is greater than or equal to 0.25."
  else if a.start_time ≥ a.end_time then
    Except.error "Start time must be before end time."
  else if a.session_date > today then
    Except.error "Session date cannot be in the future."
  else if a.hours_logged ≠ 0 ∧ a.hours_logged ≤ 0 then
    Except.error "Hours logged must be greater than 0."
  else if a.hours_logged ≠ 0 ∧ a.hours_logged > 24 then
    Except.error "Hours logged cannot exceed 24 hours per session."
  else Except.ok a

/-- serializers.py `GigSessionCreateSerializer.validate`: on top of the
base validation the gig must be active and the hours must not exceed the
gig remaining hours. -/
def validateSessionCreate (g : Gig) (today : ℤ) (a : SessionInput) :
    Except String SessionInput :=
  match validateSessionPayload today a with
  | Except.error e => Except.error e
  | Except.ok a2 =>
    if g.status ≠ GigStatus.active then
      Except.error "Can only create sessions for active gigs."
    else if a2.hours_logged ≠ 0 ∧ a2.hours_logged > g.total_hours_remaining then
      Except.error "Hours logged cannot exceed remaining hours."
    else Except.ok a2

/-- One gig together with its stored sessions, keyed by pk. -/
structure LedgerState where
  gig : Gig
  sessions : List (Nat × GigSession)
deriving DecidableEq, Repr

/-- `get_object_or_404(GigSession, pk=..., gig=gig)`. -/
def lookupSession (st : LedgerState) (pk : Nat) : Option GigSession :=
  st.sessions.lookup pk

/-- Replace the stored row `pk` after a save. -/
def setSession (sessions : List (Nat × GigSession)) (pk : Nat) (s : GigSession) :
    List (Nat × GigSession) :=
  sessions.map (fun p => if p.1 = pk then (pk, s) else p)

/-- Remove the stored row `pk` (`session.delete()`). -/
def removeSession (sessions : List (Nat × GigSession)) (pk : Nat) :
    List (Nat × GigSession) :=
  sessions.filter (fun p => p.1 ≠ pk)

/-- views.py `gig_sessions_list_create` POST: validate with
`GigSessionCreateSerializer` and save.  The verification fields being
read-only, the created row starts unverified with a null sub-record. -/
def createSessionView (st : LedgerState) (today : ℤ) (pk : Nat) (a : SessionInput) :
    Except String LedgerState :=
  match validateSessionCreate st.gig today a with
  | Except.error e => Except.error e
  | Except.ok a2 =>
    let s : GigSession :=
      { session_date := a2.session_date, start_time := a2.start_time,
        end_time := a2.end_time, hours_logged := a2.hours_logged,
        session_notes := a2.session_notes,
        student_attendance := a2.student_attendance,
        is_verified := false, verified_by := none, verified_at := none }
    match GigSession.saveWith none s st.gig with
    | Except.error e => Except.error e
    | Except.ok (s2, g2) => Except.ok { gig := g2, sessions := st.sessions ++ [(pk, s2)] }

/-- views.py `gig_session_detail` PUT: validate the payload with
`GigSessionSerializer` (verification fields read-only, hence preserved)
and save; the model save applies the ledger adjustment. -/
def editSessionView (st : LedgerState) (today : ℤ) (pk : Nat) (a : SessionInput) :
    Except String LedgerState :=
  match lookupSession st pk with
  | none => Except.error "Not found"
  | some s =>
    match validateSessionPayload today a with
    | Except.error e => Except.error e
    | Except.ok a2 =>
      let s2 : GigSession :=
        { s with session_date := a2.session_date, start_time := a2.start_time,
                 end_time := a2.end_time, hours_logged := a2.hours_logged,
                 session_notes := a2.session_notes,
                 student_attendance := a2.student_attendance }
      match GigSession.saveWith (some s) s2 st.gig with
      | Except.error e => Except.error e
      | Except.ok (s3, g2) => Except.ok { gig := g2, sessions := setSession st.sessions pk s3 }

/-- serializers.py `SessionVerificationSerializer.validate`: when asked to
verify a not-yet-verified session, reject if its hours exceed the gig
remaining hours.  (Deliberately no gig-status gate: the source comments
that sessions of completed / paused gigs may still be verified.) -/
def validateVerification (s : GigSession) (g : Gig) (verified : Bool) :
    Except String Unit :=
  if verified && !s.is_verified && decide (s.hours_logged > g.total_hours_remaining) then
    Except.error "Cannot verify session: hours logged exceed remaining hours."
  else Except.ok ()

/-- views.py `verify_session`: serializer validation, then the model
`verify` / `unverify`; a no-op result surfaces as an error response.  (The
optional notes append after a successful verify re-saves the session with
unchanged hours and verification state, which has no ledger effect and is
omitted.) -/
def verifySessionView (st : LedgerState) (pk : Nat) (verified : Bool)
    (user : Nat) (now : ℤ) : Except String LedgerState :=
  match lookupSession st pk with
  | none => Except.error "Not found"
  | some s =>
    match validateVerification s st.gig verified with
    | Except.error e => Except.error e
    | Except.ok _ =>
      if verified then
        match GigSession.verify s user now st.gig with
        | Except.error e => Except.error e
        | Except.ok (true, s2, g2) =>
          Except.ok { gig := g2, sessions := setSession st.sessions pk s2 }
        | Except.ok (false, _, _) => Except.error "Session is already verified"
      else
        match GigSession.unverify s st.gig with
        | Except.error e => Except.error e
        | Except.ok (true, s2, g2) =>
          Except.ok { gig := g2, sessions := setSession st.sessions pk s2 }
        | Except.ok (false, _, _) => Except.error "Session is not currently verified"

/-- views.py `gig_session_detail` DELETE: deletes the row and then adds
`session.hours_logged` back to the gig — unconditionally, whether or not
the session was verified — and saves the gig. -/
def deleteSessionView (st : LedgerState) (pk : Nat) : Except String LedgerState :=
  match lookupSession st pk with
  | none => Except.error "Not found"
  | some s =>
    let hours_to_restore := s.hours_logged
    let sessions2 := removeSession st.sessions pk
    match Gig.save { st.gig with
        total_hours_remaining := st.gig.total_hours_remaining + hours_to_restore } with
    | Except.error e => Except.error e
    | Except.ok g2 => Except.ok { gig := g2, sessions := sessions2 }

/-- Sum of `hours_logged` over the currently verified sessions. -/
def verifiedSum (sessions : List (Nat × GigSession)) : ℚ :=
  (sessions.filter (fun p => p.2.is_verified)).foldr (fun p acc => p.2.hours_logged + acc) 0

/-- The ledger-conservation invariant of the spec: the remaining hours
equal the initial total minus the verified-session hours. -/
def conserves (initial_total : ℚ) (st : LedgerState) : Prop :=
  st.gig.total_hours_remaining = initial_total - verifiedSum st.sessions

/-- views.py `gig_detail` PUT restricted to a `total_hours` change:
`GigUpdateSerializer` field validation (model `MinValueValidator(0.50)`),
`validate_total_hours`, then the view recomputes
`total_hours_remaining = new_total_hours - hours_completed` when the total
changed, and the serializer saves. -/
def gigUpdateTotalHours (g : Gig) (new_total : ℚ) : Except String Gig :=
  if new_total < 1/2 then
    Except.error "Ensure this value is greater than or equal to 0.5."
  else if new_total < g.hours_completed then
    Except.error "Total hours cannot be less than hours already completed."
  else if new_total ≠ g.total_hours then
    Gig.save { g with
      total_hours := new_total,
      total_hours_remaining := new_total - g.hours_completed }
  else Gig.save g

/-- gigs/models.py `OnlineSession.STATUS_CHOICES`. -/
inductive OnlineStatus
  | scheduled
  | active
  | completed
  | cancelled
deriving DecidableEq, Repr

/-- The fields of an `OnlineSession` row that scheduling-conflict
detection reads. -/
structure OnlineSessionRec where
  tutor_id : Nat
  status : OnlineStatus
  scheduled_start : ℤ
  scheduled_end : ℤ
deriving DecidableEq, Repr

/-- The filter body of the conflict query in
`OnlineSessionCreateSerializer.validate`: same tutor, status in
scheduled / active, `scheduled_start < new_end`, `scheduled_end > new_start`. -/
def conflictsWith (x : OnlineSessionRec) (tid : Nat) (s e : ℤ) : Bool :=
  x.tutor_id == tid &&
  (x.status == OnlineStatus.scheduled || x.status == OnlineStatus.active) &&
  decide (x.scheduled_start < e) && decide (x.scheduled_end > s)

/-- serializers.py `OnlineSessionCreateSerializer.validate`: start before
end, the gig must have a tutor (who becomes the session tutor), and no
conflicting scheduled / active session may exist for that tutor. -/
def validateOnlineCreate (existing : List OnlineSessionRec) (gig_tutor : Option Nat)
    (s e : ℤ) : Except String Nat :=
  if s ≥ e then
    Except.error "End time must be after start time."
  else
    match gig_tutor with
    | none => Except.error "Selected gig must have an assigned tutor."
    | some tid =>
      if existing.any (fun x => conflictsWith x tid s e) then
        Except.error "Tutor already has a session scheduled during this time."
      else Except.ok tid

/-- The net amount `GigSession.saveWith old s` subtracts from the gig
ledger, read off branch-by-branch from the save logic. -/
def ledgerDelta (old : Option GigSession) (s : GigSession) : ℚ :=
  if s.is_verified then
    match old with
    | none => s.hours_logged
    | some o =>
      if o.is_verified then
        (if o.hours_logged ≠ s.hours_logged then s.hours_logged - o.hours_logged else 0)
      else s.hours_logged
  else
    match old with
    | some o => if o.is_verified then -s.hours_logged else 0
    | none => 0

instance (i : ℚ) (st : LedgerState) : Decidable (conserves i st) :=
  inferInstanceAs (Decidable (st.gig.total_hours_remaining = i - verifiedSum st.sessions))

/-- A 10-hour active gig with a full ledger and no sessions. -/
def gigC1 : Gig :=
  { tutor := none, total_tutor_remuneration := 50, total_client_fee := 100,
    total_hours := 10, total_hours_remaining := 10, status := GigStatus.active,
    start_date := 0, end_date := 30, actual_start_date := none, actual_end_date := none,
    notes := "" }

/-- A two-hour session payload. -/
def inputC1A : SessionInput :=
  { session_date := 1, start_time := 10, end_time := 12, hours_logged := 2,
    session_notes := "", student_attendance := true }

/-- A one-hour session payload. -/
def inputC1B : SessionInput :=
  { session_date := 2, start_time := 14, end_time := 15, hours_logged := 1,
    session_notes := "", student_attendance := true }

/-- The operation sequence create A (2h), verify A, create B (1h),
delete B, starting from the fresh 10-hour gig. -/
def runC1 : Except String LedgerState :=
  createSessionView { gig := gigC1, sessions := [] } 5 1 inputC1A >>= fun st1 =>
  verifySessionView st1 1 true 7 5 >>= fun st2 =>
  createSessionView st2 5 2 inputC1B >>= fun st3 =>
  deleteSessionView st3 2

/-- An 8-hour verified session. -/
def sessC2A : GigSession :=
  { session_date := 1, start_time := 9, end_time := 17, hours_logged := 8,
    session_notes := "", student_attendance := true,
    is_verified := true, verified_by := some 7, verified_at := some 1 }

/-- A 1.5-hour unverified session. -/
def sessC2B : GigSession :=
  { session_date := 2, start_time := 9, end_time := 11, hours_logged := 3/2,
    session_notes := "", student_attendance := true,
    is_verified := false, verified_by := none, verified_at := none }

/-- A 10-hour gig at 2.0 hours remaining (8 hours verified), holding the
verified session (pk 1) and the unverified one (pk 2). -/
def stC2 : LedgerState :=
  { gig := { tutor := none, total_tutor_remuneration := 50, total_client_fee := 100,
             total_hours := 10, total_hours_remaining := 2, status := GigStatus.active,
             start_date := 0, end_date := 30, actual_start_date := none,
             actual_end_date := none, notes := "" },
    sessions := [(1, sessC2A), (2, sessC2B)] }

/-- A 10-hour active gig whose ledger is exhausted: 0 hours remaining,
i.e. 10 hours already completed. -/
def gigC6 : Gig :=
  { tutor := none, total_tutor_remuneration := 50, total_client_fee := 100,
    total_hours := 10, total_hours_remaining := 0, status := GigStatus.active,
    start_date := 0, end_date := 30, actual_start_date := none, actual_end_date := none,
    notes := "" }

/-- A fully consumed 10-hour active gig for the reporting computation. -/
def gigC9 : Gig :=
  { tutor := none, total_tutor_remuneration := 60, total_client_fee := 100,
    total_hours := 10, total_hours_remaining := 0, status := GigStatus.active,
    start_date := 0, end_date := 30, actual_start_date := none, actual_end_date := none,
    notes := "" }

/-- A session lookup state for the witness. -/
def exC8 : List OnlineSessionRec :=
  [{ tutor_id := 1, status := OnlineStatus.scheduled, scheduled_start := 600,
     scheduled_end := 660 }]

/-- A completed gig with an unverified 2-hour session and 3 hours left in
the ledger, for demonstrating that verification is not status-gated. -/
def stC5v : LedgerState :=
  { gig := { tutor := none, total_tutor_remuneration := 50, total_client_fee := 100,
             total_hours := 10, total_hours_remaining := 3,
             status := GigStatus.completed, start_date := 0, end_date := 30,
             actual_start_date := none, actual_end_date := none, notes := "" },
    sessions := [(1,
      { session_date := 1, start_time := 10, end_time := 12, hours_logged := 2,
        session_notes := "", student_attendance := true,
        is_verified := false, verified_by := none, verified_at := none })] }

/-- An active, unblocked tutor. -/
def tutorC5 : Tutor := { full_name := "Taylor", is_active := true, is_blocked := false }

/-- Tutor table with one valid tutor, id 1. -/
def tutorsC5 : Nat → Option Tutor := fun n => if n = 1 then some tutorC5 else none

/-- A completed, unassigned gig. -/
def gigC5 : Gig :=
  { tutor := none, total_tutor_remuneration := 50, total_client_fee := 100,
    total_hours := 10, total_hours_remaining := 0, status := GigStatus.completed,
    start_date := 0, end_date := 30, actual_start_date := none, actual_end_date := none,
    notes := "" }

/-- A pending, assigned, well-formed gig for the C5 witness. -/
def gigC5pend : Gig :=
  { tutor := some tutorC5, total_tutor_remuneration := 50, total_client_fee := 100,
    total_hours := 10, total_hours_remaining := 10, status := GigStatus.pending,
    start_date := 0, end_date := 30, actual_start_date := none, actual_end_date := none,
    notes := "" }

/-- Two active, unblocked tutors. -/
def tutorC7A : Tutor := { full_name := "Alice", is_active := true, is_blocked := false }

/-- Second tutor for the reassignment counterexample. -/
def tutorC7B : Tutor := { full_name := "Bob", is_active := true, is_blocked := false }

/-- An inactive tutor, id 3 in the table. -/
def tutorC7C : Tutor := { full_name := "Carol", is_active := false, is_blocked := false }

/-- Tutor table for the assignment claims. -/
def tutorsC7 : Nat → Option Tutor := fun n =>
  if n = 1 then some tutorC7A
  else if n = 2 then some tutorC7B
  else if n = 3 then some tutorC7C
  else none

/-- A pending gig already assigned to Alice. -/
def gigC7 : Gig :=
  { tutor := some tutorC7A, total_tutor_remuneration := 50, total_client_fee := 100,
    total_hours := 10, total_hours_remaining := 10, status := GigStatus.pending,
    start_date := 0, end_date := 30, actual_start_date := none, actual_end_date := none,
    notes := "" }

/-- State for the C3 witness: 5 logged hours against 3 remaining. -/
def stC3w : LedgerState :=
  { gig := { tutor := none, total_tutor_remuneration := 50, total_client_fee := 100,
             total_hours := 10, total_hours_remaining := 3, status := GigStatus.active,
             start_date := 0, end_date := 30, actual_start_date := none,
             actual_end_date := none, notes := "" },
    sessions := [(1,
      { session_date := 1, start_time := 10, end_time := 16, hours_logged := 5,
        session_notes := "", student_attendance := true,
        is_verified := false, verified_by := none, verified_at := none })] }

/-- The session stored under pk 1 in `stC3w`. -/
def sessC3w : GigSession :=
  { session_date := 1, start_time := 10, end_time := 16, hours_logged := 5,
    session_notes := "", student_attendance := true,
    is_verified := false, verified_by := none, verified_at := none }

/-- Gig for the C4 witness: remaining 5.0 with a verified 2.0-hour session. -/
def gigC4w : Gig :=
  { tutor := none, total_tutor_remuneration := 50, total_client_fee := 100,
    total_hours := 10, total_hours_remaining := 5, status := GigStatus.active,
    start_date := 0, end_date := 30, actual_start_date := none, actual_end_date := none,
    notes := "" }

/-- The verified 2.0-hour session of the C4 witness. -/
def sessC4w : GigSession :=
  { session_date := 1, start_time := 10, end_time := 12, hours_logged := 2,
    session_notes := "", student_attendance := true,
    is_verified := true, verified_by := some 7, verified_at := some 1 }

/-- The witness state. -/
def stC4w : LedgerState := { gig := gigC4w, sessions := [(1, sessC4w)] }

/-- The edit payload changing hours to 3.5. -/
def inputC4w : SessionInput :=
  { session_date := 1, start_time := 10, end_time := 12, hours_logged := 7/2,
    session_notes := "", student_attendance := true }

/-- The state after the edit: remaining 3.5 and the session at 3.5 hours. -/
def resC4w : LedgerState :=
  { gig := { gigC4w with total_hours_remaining := 7/2 },
    sessions := [(1, { sessC4w with hours_logged := 7/2 })] }

/-- A pending-gig state on which creation must be rejected. -/
def stC10bad : LedgerState :=
  { gig := { tutor := none, total_tutor_remuneration := 50, total_client_fee := 100,
             total_hours := 10, total_hours_remaining := 10,
             status := GigStatus.pending, start_date := 0, end_date := 30,
             actual_start_date := none, actual_end_date := none, notes := "" },
    sessions := [] }

/-- An active-gig state accepting creation. -/
def stC10w : LedgerState :=
  { gig := { tutor := none, total_tutor_remuneration := 50, total_client_fee := 100,
             total_hours := 10, total_hours_remaining := 10,
             status := GigStatus.active, start_date := 0, end_date := 30,
             actual_start_date := none, actual_end_date := none, notes := "" },
    sessions := [] }

/-- A valid 2-hour session payload. -/
def inputC10w : SessionInput :=
  { session_date := 1, start_time := 10, end_time := 12, hours_logged := 2,
    session_notes := "", student_attendance := true }

lemma conflictsWith_eq_true (x : OnlineSessionRec) (tid : Nat) (s e : ℤ) :
    conflictsWith x tid s e = true ↔
      (x.tutor_id = tid ∧
       (x.status = OnlineStatus.scheduled ∨ x.status = OnlineStatus.active) ∧
       x.scheduled_start < e ∧ x.scheduled_end > s) := by
  simp [conflictsWith, and_assoc]

lemma save_map_pair_ok (s1 : GigSession) (gU : Gig) (p : GigSession × Gig)
    (h : (Gig.save gU).map (fun g2 => (s1, g2)) = Except.ok p) : p = (s1, gU) := by
  unfold Gig.save at h
  split at h
  · simp only [Except.map, Except.ok.injEq] at h
    exact h.symm
  · simp [Except.map] at h

lemma saveWith_ok_inv (old : Option GigSession) (s : GigSession) (g : Gig)
    (s2 : GigSession) (g2 : Gig)
    (h : GigSession.saveWith old s g = Except.ok (s2, g2)) :
    s2 = s ∧ g2.total_hours_remaining = g.total_hours_remaining - ledgerDelta old s := by
  by_cases ht : s.start_time ≥ s.end_time
  · unfold GigSession.saveWith at h
    rw [if_pos ht] at h
    exact absurd h (by simp)
  · cases old with
    | none =>
      cases hsv : s.is_verified with
      | true =>
        simp only [GigSession.saveWith, if_neg ht, hsv, Option.isNone_none,
          Bool.not_false, Bool.and_self, if_true] at h
        have hp := save_map_pair_ok _ _ _ h
        rw [Prod.mk.injEq] at hp
        refine ⟨hp.1, ?_⟩
        rw [hp.2]
        simp [ledgerDelta, hsv]
      | false =>
        simp only [GigSession.saveWith, if_neg ht, hsv, Option.isNone_none,
          Bool.false_eq_true, if_false, Bool.not_false, Bool.and_false, Bool.and_true,
          Except.ok.injEq, Prod.mk.injEq] at h
        refine ⟨h.1.symm, ?_⟩
        rw [← h.2]
        simp [ledgerDelta, hsv]
    | some o =>
      cases hov : o.is_verified with
      | true =>
        cases hsv : s.is_verified with
        | true =>
          by_cases hne : o.hours_logged ≠ s.hours_logged
          · simp only [GigSession.saveWith, if_neg ht, hsv, hov, Option.isNone_some,
              Bool.not_true, Bool.not_false, Bool.false_and, Bool.false_eq_true, if_false,
              Bool.true_and, Bool.and_false, decide_eq_true hne, Bool.and_true, if_true] at h
            have hp := save_map_pair_ok _ _ _ h
            rw [Prod.mk.injEq] at hp
            refine ⟨hp.1, ?_⟩
            rw [hp.2]
            simp [ledgerDelta, hsv, hov, if_pos hne]
          · simp only [GigSession.saveWith, if_neg ht, hsv, hov, Option.isNone_some,
              Bool.not_true, Bool.not_false, Bool.false_and, Bool.false_eq_true, if_false,
              Bool.true_and, Bool.and_false, decide_eq_false hne, Bool.and_true,
              ite_self, Except.ok.injEq, Prod.mk.injEq] at h
            refine ⟨h.1.symm, ?_⟩
            rw [← h.2]
            simp [ledgerDelta, hsv, hov, if_neg hne]
        | false =>
          simp only [GigSession.saveWith, if_neg ht, hsv, hov, Option.isNone_some,
            Bool.not_true, Bool.not_false, Bool.false_eq_true, if_false, Bool.true_and,
            Bool.and_true, if_true] at h
          have hp := save_map_pair_ok _ _ _ h
          rw [Prod.mk.injEq] at hp
          refine ⟨hp.1, ?_⟩
          rw [hp.2]
          simp [ledgerDelta, hsv, hov]
      | false =>
        cases hsv : s.is_verified with
        | true =>
          simp only [GigSession.saveWith, if_neg ht, hsv, hov, Option.isNone_some,
            Bool.not_true, Bool.not_false, Bool.false_and, Bool.false_eq_true, if_false,
            Bool.true_and, Bool.and_true, Bool.and_false, Bool.and_self, if_true] at h
          have hp := save_map_pair_ok _ _ _ h
          rw [Prod.mk.injEq] at hp
          refine ⟨hp.1, ?_⟩
          rw [hp.2]
          simp [ledgerDelta, hsv, hov]
        | false =>
          simp only [GigSession.saveWith, if_neg ht, hsv, hov, Option.isNone_some,
            Bool.not_true, Bool.not_false, Bool.false_eq_true, if_false, Bool.and_false,
            Bool.false_and, Except.ok.injEq, Prod.mk.injEq] at h
          refine ⟨h.1.symm, ?_⟩
          rw [← h.2]
          simp [ledgerDelta, hsv, hov]

lemma verify_ok_inv (s0 : GigSession) (user : Nat) (now : ℤ) (g : Gig)
    (s2 : GigSession) (g2 : Gig)
    (h : GigSession.verify s0 user now g = Except.ok (true, s2, g2)) :
    s0.is_verified = false ∧
    s2 = { s0 with is_verified := true, verified_by := some user,
                   verified_at := some now } ∧
    g2.total_hours_remaining = g.total_hours_remaining - s0.hours_logged := by
  unfold GigSession.verify at h
  cases hver : s0.is_verified with
  | true =>
    simp only [hver, Bool.not_true, Bool.false_eq_true, if_false] at h
    simp at h
  | false =>
    simp only [hver, Bool.not_false, if_true] at h
    cases hsw : GigSession.saveWith (some s0)
        { s0 with is_verified := true, verified_by := some user,
                  verified_at := some now } g with
    | error e =>
      rw [hsw] at h
      simp at h
    | ok p =>
      rw [hsw] at h
      obtain ⟨ps, pg⟩ := p
      simp only [Except.ok.injEq, Prod.mk.injEq, true_and] at h
      obtain ⟨hps, hpg⟩ := h
      have hinv := saveWith_ok_inv _ _ _ _ _ hsw
      refine ⟨rfl, ?_, ?_⟩
      · rw [← hps]
        exact hinv.1
      · rw [← hpg]
        have hd : ledgerDelta (some s0)
            { s0 with is_verified := true, verified_by := some user,
                      verified_at := some now } = s0.hours_logged := by
          simp [ledgerDelta, hver]
        rw [hinv.2, hd]

lemma verifyView_ok_inv (st : LedgerState) (pk : Nat) (user : Nat) (now : ℤ)
    (res : LedgerState) (h : verifySessionView st pk true user now = Except.ok res) :
    ∃ s0, lookupSession st pk = some s0 ∧ s0.is_verified = false ∧
      s0.hours_logged ≤ st.gig.total_hours_remaining ∧
      res.gig.total_hours_remaining = st.gig.total_hours_remaining - s0.hours_logged := by
  unfold verifySessionView at h
  cases hlk : lookupSession st pk with
  | none =>
    rw [hlk] at h
    simp at h
  | some s0 =>
    rw [hlk] at h
    simp only [validateVerification] at h
    cases hcmp : (true && !s0.is_verified &&
        decide (s0.hours_logged > st.gig.total_hours_remaining)) with
    | true =>
      rw [hcmp] at h
      simp at h
    | false =>
      rw [hcmp] at h
      simp only [Bool.false_eq_true, if_false, if_true] at h
      cases hvr : GigSession.verify s0 user now st.gig with
      | error e =>
        rw [hvr] at h
        simp at h
      | ok trip =>
        obtain ⟨b, s2, g2⟩ := trip
        cases b with
        | false =>
          rw [hvr] at h
          simp at h
        | true =>
          rw [hvr] at h
          simp only [Except.ok.injEq] at h
          obtain ⟨hv0, hs2, hg2⟩ := verify_ok_inv _ _ _ _ _ _ hvr
          have hle : s0.hours_logged ≤ st.gig.total_hours_remaining := by
            rw [hv0] at hcmp
            simp only [Bool.not_false, Bool.and_true, Bool.true_and] at hcmp
            exact not_lt.mp (of_decide_eq_false hcmp)
          refine ⟨s0, rfl, hv0, hle, ?_⟩
          rw [← h]
          simpa using hg2

lemma validateSessionPayload_ok_inv (today : ℤ) (a a2 : SessionInput)
    (h : validateSessionPayload today a = Except.ok a2) :
    a2 = a ∧ ¬ (a.hours_logged < 1/4) := by
  unfold validateSessionPayload at h
  split at h
  · exact absurd h (by simp)
  next hq =>
    split at h
    · exact absurd h (by simp)
    · split at h
      · exact absurd h (by simp)
      · split at h
        · exact absurd h (by simp)
        · split at h
          · exact absurd h (by simp)
          · simp only [Except.ok.injEq] at h
            exact ⟨h.symm, hq⟩

lemma validateSessionCreate_ok_inv (g : Gig) (today : ℤ) (a a2 : SessionInput)
    (h : validateSessionCreate g today a = Except.ok a2) :
    a2 = a ∧ g.status = GigStatus.active ∧
    a.hours_logged ≤ g.total_hours_remaining ∧ 1/4 ≤ a.hours_logged := by
  unfold validateSessionCreate at h
  cases hvp : validateSessionPayload today a with
  | error e =>
    rw [hvp] at h
    simp at h
  | ok a3 =>
    rw [hvp] at h
    obtain ⟨ha3, hq⟩ := validateSessionPayload_ok_inv today a a3 hvp
    rw [ha3] at h
    have hq2 : (1 : ℚ)/4 ≤ a.hours_logged := not_lt.mp hq
    simp only [] at h
    split at h
    · exact absurd h (by simp)
    next hactive =>
      split at h
      · exact absurd h (by simp)
      next hbound =>
        simp only [Except.ok.injEq] at h
        have hle : a.hours_logged ≤ g.total_hours_remaining := by
          rcases not_and_or.mp hbound with h0 | hgt2
          · have h00 : a.hours_logged = 0 := not_not.mp h0
            rw [h00] at hq2
            norm_num at hq2
          · exact not_lt.mp hgt2
        exact ⟨h.symm, not_not.mp (by simpa using hactive), hle, hq2⟩

lemma setSession_cons (k : Nat) (v : GigSession) (tl : List (Nat × GigSession))
    (pk : Nat) (s : GigSession) :
    setSession ((k, v) :: tl) pk s =
      (if k = pk then (pk, s) else (k, v)) :: setSession tl pk s := by
  by_cases hk : k = pk
  · simp [setSession, hk]
  · simp [setSession, hk]

lemma lookup_cons_pair (a k : Nat) (v : GigSession) (tl : List (Nat × GigSession)) :
    List.lookup a ((k, v) :: tl) = if a == k then some v else List.lookup a tl := by
  cases h : a == k with
  | true => simp [List.lookup, h]
  | false => simp [List.lookup, h]

lemma lookup_setSession (l : List (Nat × GigSession)) (pk : Nat) (s0 s : GigSession)
    (h : l.lookup pk = some s0) : (setSession l pk s).lookup pk = some s := by
  induction l with
  | nil => simp [List.lookup] at h
  | cons hd tl ih =>
    obtain ⟨k, v⟩ := hd
    rw [setSession_cons]
    by_cases hk : k = pk
    · rw [if_pos hk, lookup_cons_pair]
      simp
    · rw [if_neg hk, lookup_cons_pair]
      rw [lookup_cons_pair] at h
      have hbeq : (pk == k) = false := beq_eq_false_iff_ne.mpr (Ne.symm hk)
      rw [hbeq] at h
      rw [hbeq]
      simp only [Bool.false_eq_true, if_false] at h ⊢
      exact ih h

lemma gig_save_ok_inv (g g2 : Gig) (h : Gig.save g = Except.ok g2) : g2 = g := by
  unfold Gig.save at h
  split at h
  · simp only [Except.ok.injEq] at h
    exact h.symm
  · simp at h

/-- C1: the claimed ledger-conservation invariant fails on the code.  After
create A (2h); verify A; create B (1h, left unverified); delete B — all
accepted operations — the gig that started with 10 total hours has
9 hours remaining while the verified sessions sum to 2 hours, because the
session DELETE handler adds `hours_logged` back for unverified sessions
too.  The invariant demands 10 − 2 = 8. -/
theorem q4k_C1_delete_breaks_ledger_conservation :
    runC1.toOption.map (fun st => (st.gig.total_hours_remaining, verifiedSum st.sessions)) =
      some (9, 2) ∧
    runC1.toOption.map (fun st => decide (conserves 10 st)) = some false := by
  exact ⟨by decide, by decide⟩

/-- C2: deleting the UNVERIFIED 1.5-hour session from the gig at 2.0 hours
remaining yields 3.5 remaining — the DELETE handler restores hours
unconditionally — where the claim requires the ledger to stay at 2.0.
(Deleting the verified 8-hour session yields 10.0, as the claim says.) -/
theorem q4k_C2_delete_unverified_changes_ledger :
    (deleteSessionView stC2 2).toOption.map (fun st => st.gig.total_hours_remaining) =
      some (7/2) ∧
    (7/2 : ℚ) ≠ 2 ∧
    (deleteSessionView stC2 1).toOption.map (fun st => st.gig.total_hours_remaining) =
      some 10 := by
  exact ⟨by decide, by decide, by decide⟩

/-- C3: verifying an unverified session whose `hours_logged` exceed the
gig remaining hours is rejected (the serializer validation fails, so no
mutation happens — an `Except.error` result models the 4xx rejection), and
any successful verify leaves a nonnegative ledger: the accepted hours are
bounded by the remaining hours and are subtracted exactly once. -/
theorem q4k_C3_verify_guard_no_negative_ledger (st : LedgerState) (pk : Nat) (s : GigSession)
    (user : Nat) (now : ℤ)
    (hs : lookupSession st pk = some s) (hv : s.is_verified = false)
    (hgt : s.hours_logged > st.gig.total_hours_remaining) :
    (∃ e, verifySessionView st pk true user now = Except.error e) ∧
    (∀ st2 pk2 user2 now2 res, verifySessionView st2 pk2 true user2 now2 = Except.ok res →
       0 ≤ res.gig.total_hours_remaining) := by
  constructor
  · refine ⟨"Cannot verify session: hours logged exceed remaining hours.", ?_⟩
    simp only [verifySessionView, hs, validateVerification, hv, Bool.not_false,
      Bool.and_true, Bool.true_and, decide_eq_true hgt, if_true]
  · intro st2 pk2 user2 now2 res h
    obtain ⟨s0, _, _, hle, hrem⟩ := verifyView_ok_inv st2 pk2 user2 now2 res h
    rw [hrem]
    exact sub_nonneg.mpr hle

/-- Witness for C3 at a concrete state: 5 logged hours against 3
remaining hours are rejected. -/
theorem q4k_C3_witness :
    ∃ e, verifySessionView stC3w 1 true 7 0 = Except.error e :=
  (q4k_C3_verify_guard_no_negative_ledger stC3w 1 sessC3w 7 0 (by decide) rfl (by decide)).1

/-- C4: editing a verified session through the session PUT endpoint
adjusts the gig ledger by exactly the delta `new − old` of `hours_logged`,
and the stored session keeps its verification sub-record (`is_verified`,
`verified_by`, `verified_at`) — no intermediate unverify / re-verify. -/
theorem q4k_C4_edit_verified_delta (st : LedgerState) (today : ℤ) (pk : Nat)
    (s : GigSession) (a : SessionInput) (res : LedgerState)
    (hs : lookupSession st pk = some s) (hv : s.is_verified = true)
    (h : editSessionView st today pk a = Except.ok res) :
    res.gig.total_hours_remaining =
      st.gig.total_hours_remaining - (a.hours_logged - s.hours_logged) ∧
    ∃ s2, lookupSession res pk = some s2 ∧ s2.hours_logged = a.hours_logged ∧
      s2.is_verified = true ∧ s2.verified_by = s.verified_by ∧
      s2.verified_at = s.verified_at := by
  unfold editSessionView at h
  rw [show lookupSession st pk = some s from hs] at h
  simp only [] at h
  cases hvp : validateSessionPayload today a with
  | error e =>
    rw [hvp] at h
    simp at h
  | ok a2 =>
    rw [hvp] at h
    obtain ⟨ha2, -⟩ := validateSessionPayload_ok_inv today a a2 hvp
    rw [ha2] at h
    simp only [] at h
    cases hsw : GigSession.saveWith (some s)
        { s with session_date := a.session_date, start_time := a.start_time,
                 end_time := a.end_time, hours_logged := a.hours_logged,
                 session_notes := a.session_notes,
                 student_attendance := a.student_attendance } st.gig with
    | error e =>
      rw [hsw] at h
      simp at h
    | ok p =>
      rw [hsw] at h
      obtain ⟨ps, pg⟩ := p
      simp only [Except.ok.injEq] at h
      obtain ⟨hp1, hp2⟩ := saveWith_ok_inv _ _ _ _ _ hsw
      have hdelta : ledgerDelta (some s)
          { s with session_date := a.session_date, start_time := a.start_time,
                   end_time := a.end_time, hours_logged := a.hours_logged,
                   session_notes := a.session_notes,
                   student_attendance := a.student_attendance } =
          a.hours_logged - s.hours_logged := by
        by_cases hne : s.hours_logged ≠ a.hours_logged
        · simp [ledgerDelta, hv, if_pos hne]
        · have heq : s.hours_logged = a.hours_logged := not_not.mp hne
          simp [ledgerDelta, hv, heq]
      constructor
      · rw [← h]
        simp only []
        rw [hp2, hdelta]
      · refine ⟨ps, ?_, ?_, ?_, ?_, ?_⟩
        · rw [← h]
          simp only [lookupSession]
          exact lookup_setSession st.sessions pk s ps hs
        · rw [hp1]
        · rw [hp1]
          exact hv
        · rw [hp1]
        · rw [hp1]

/-- Witness for C4 on the spec example: hours 2.0, remaining 5.0, edited
to 3.5, leaving remaining 3.5 = 5.0 − (3.5 − 2.0). -/
theorem q4k_C4_witness :
    editSessionView stC4w 5 1 inputC4w = Except.ok resC4w ∧
    resC4w.gig.total_hours_remaining =
      stC4w.gig.total_hours_remaining -
        (inputC4w.hours_logged - sessC4w.hours_logged) := by
  have h : editSessionView stC4w 5 1 inputC4w = Except.ok resC4w := by rfl
  exact ⟨h, (q4k_C4_edit_verified_delta stC4w 5 1 sessC4w inputC4w resC4w
    (by decide) rfl h).1⟩

/-- C5 counterexample: `assign` is a mutating operation that succeeds on a
COMPLETED gig — the assignment view has no gig-status precondition — so
"from completed/cancelled, every mutating operation is rejected" is false
as stated. -/
theorem q4k_C5_counterexample :
    gigC5.status = GigStatus.completed ∧ gigC5.tutor = none ∧
    (assignGigView tutorsC5 gigC5 1 "" "2025-01-01 10:00").toOption.map
      (fun g => (g.tutor, g.status)) = some (some tutorC5, GigStatus.completed) := by
  exact ⟨rfl, rfl, by decide⟩

/-- C5 amended: from `completed` or `cancelled`, the five status-change
lifecycle operations (start, complete, hold, resume, cancel) are rejected
with the gig unchanged; from `pending`, complete / hold / resume are
rejected, start is rejected while no tutor is assigned, and start succeeds
for an assigned well-formed gig, setting status `active` and the actual
start date.  Assignment and session verification, however, are not gated
on `completed`/`cancelled`: verifying a session of a completed gig
succeeds and debits its ledger. -/
theorem q4k_C5_amended :
    (∀ g : Gig, ∀ today : ℤ, ∀ reason ts : String,
      g.status = GigStatus.completed ∨ g.status = GigStatus.cancelled →
      (∃ e, startGigView g today = Except.error e) ∧
      (∃ e, completeGigView g today = Except.error e) ∧
      (∃ e, holdGigView g reason ts = Except.error e) ∧
      (∃ e, resumeGigView g ts = Except.error e) ∧
      (∃ e, cancelGigView g reason ts = Except.error e)) ∧
    (∀ g : Gig, ∀ today : ℤ, ∀ reason ts : String, g.status = GigStatus.pending →
      (∃ e, completeGigView g today = Except.error e) ∧
      (∃ e, holdGigView g reason ts = Except.error e) ∧
      (∃ e, resumeGigView g ts = Except.error e) ∧
      (g.tutor = none → ∃ e, startGigView g today = Except.error e) ∧
      (∀ t, g.tutor = some t → g.cleanOk = true → g.actual_end_date = none →
        startGigView g today =
          Except.ok { g with status := GigStatus.active,
                             actual_start_date := some today })) ∧
    (verifySessionView stC5v 1 true 7 0).toOption.map
      (fun st => (st.gig.status, st.gig.total_hours_remaining)) =
      some (GigStatus.completed, 1) := by
  refine ⟨?_, ?_, by decide⟩
  · intro g today reason ts h
    refine ⟨⟨"Cannot start gig with status", ?_⟩,
      ⟨"Cannot complete gig with status", ?_⟩,
      ⟨"Cannot put gig on hold with status", ?_⟩,
      ⟨"Cannot resume gig with status", ?_⟩,
      ⟨"Cannot cancel gig with status", ?_⟩⟩
    · unfold startGigView
      rw [if_pos (by rcases h with h | h <;> simp [h])]
    · unfold completeGigView
      rw [if_pos (by rcases h with h | h <;> simp [h])]
    · unfold holdGigView
      rw [if_pos (by rcases h with h | h <;> simp [h])]
    · unfold resumeGigView
      rw [if_pos (by rcases h with h | h <;> simp [h])]
    · unfold cancelGigView
      rw [if_pos h]
  · intro g today reason ts h
    refine ⟨⟨"Cannot complete gig with status", ?_⟩,
      ⟨"Cannot put gig on hold with status", ?_⟩,
      ⟨"Cannot resume gig with status", ?_⟩, ?_, ?_⟩
    · unfold completeGigView
      rw [if_pos (by simp [h])]
    · unfold holdGigView
      rw [if_pos (by simp [h])]
    · unfold resumeGigView
      rw [if_pos (by simp [h])]
    · intro hnone
      refine ⟨"Cannot start unassigned gig", ?_⟩
      unfold startGigView
      rw [if_neg (by simp [h]), if_pos (by simp [hnone])]
    · intro t ht hclean hend
      unfold startGigView
      rw [if_neg (by simp [h]), if_neg (by simp [ht])]
      unfold Gig.start_gig
      rw [if_pos h]
      unfold Gig.save
      rw [if_pos ?_]
      unfold Gig.cleanOk at hclean ⊢
      simp only [hend, Bool.and_eq_true, Bool.and_true] at hclean ⊢
      exact hclean.1

/-- Witness for C5 at concrete gigs: a completed gig rejects start and
cancel, a pending assigned gig rejects complete but starts successfully. -/
theorem q4k_C5_amended_witness :
    (∃ e, startGigView gigC5 3 = Except.error e) ∧
    (∃ e, cancelGigView gigC5 "r" "ts" = Except.error e) ∧
    (∃ e, completeGigView gigC5pend 3 = Except.error e) ∧
    startGigView gigC5pend 3 =
      Except.ok { gigC5pend with status := GigStatus.active,
                                 actual_start_date := some 3 } := by
  refine ⟨(q4k_C5_amended.1 gigC5 3 "r" "ts" (Or.inl rfl)).1,
    (q4k_C5_amended.1 gigC5 3 "r" "ts" (Or.inl rfl)).2.2.2.2,
    (q4k_C5_amended.2.1 gigC5pend 3 "r" "ts" rfl).1,
    (q4k_C5_amended.2.1 gigC5pend 3 "r" "ts" rfl).2.2.2.2 tutorC5 rfl (by decide) rfl⟩

/-- C6: on a gig with `total_hours = 10` and `total_hours_remaining = 0`
(10 hours consumed), `hours_completed` evaluates to 0 because the Decimal
truthiness guard treats the zero remaining balance as falsy.  Resizing
`total_hours` to 12 therefore sets the remaining hours to 12 − 0 = 12
(the claim requires 2), and resizing to 5 — below the 10 hours already
completed — is accepted with remaining 5 (the claim requires rejection). -/
theorem q4k_C6_resize_ignores_consumed_hours_at_zero_remaining :
    gigC6.total_hours = 10 ∧ gigC6.total_hours_remaining = 0 ∧
    gigC6.hours_completed = 0 ∧
    (gigUpdateTotalHours gigC6 12).toOption.map
      (fun g => (g.total_hours, g.total_hours_remaining)) = some (12, 12) ∧
    (gigUpdateTotalHours gigC6 5).toOption.map
      (fun g => (g.total_hours, g.total_hours_remaining)) = some (5, 5) := by
  exact ⟨by decide, by decide, by decide, by decide, by decide⟩

/-- C7 counterexample: assigning tutor Bob to a gig already assigned to
Alice is NOT rejected — the view performs a reassignment — so the claimed
precondition "tutor currently unassigned" does not exist in the code. -/
theorem q4k_C7_counterexample :
    gigC7.tutor = some tutorC7A ∧ tutorC7A ≠ tutorC7B ∧
    (assignGigView tutorsC7 gigC7 2 "" "2025-01-01 10:00").toOption.map
      (fun g => g.tutor) = some (some tutorC7B) := by
  exact ⟨rfl, by decide, by decide⟩

/-- C7 amended: `assign(tutor)` requires only that the target tutor
exists, is active and is not blocked — an already-assigned gig is
reassigned rather than rejected.  Outside that precondition the request is
rejected (no mutation); on success the tutor is set, a nonempty audit
suffix is appended to the notes, and the status and the ledger are
unchanged. -/
theorem q4k_C7_amended (tutors : Nat → Option Tutor) (g : Gig) (tid : Nat)
    (note ts : String) :
    (tutors tid = none →
      ∃ e, assignGigView tutors g tid note ts = Except.error e) ∧
    (∀ t, tutors tid = some t → t.is_active = false →
      ∃ e, assignGigView tutors g tid note ts = Except.error e) ∧
    (∀ t, tutors tid = some t → t.is_blocked = true →
      ∃ e, assignGigView tutors g tid note ts = Except.error e) ∧
    (∀ t g2, tutors tid = some t →
      assignGigView tutors g tid note ts = Except.ok g2 →
      g2.tutor = some t ∧ g2.status = g.status ∧
      g2.total_hours_remaining = g.total_hours_remaining ∧
      ∃ suffix, suffix ≠ "" ∧ g2.notes = g.notes ++ suffix) := by
  refine ⟨?_, ?_, ?_, ?_⟩
  · intro hnone
    refine ⟨"Tutor not found.", ?_⟩
    unfold assignGigView validateTutorId
    rw [hnone]
  · intro t ht hact
    refine ⟨"Cannot assign gig to inactive tutor.", ?_⟩
    unfold assignGigView validateTutorId
    rw [ht]
    simp [hact]
  · intro t ht hbl
    unfold assignGigView validateTutorId
    rw [ht]
    cases hact : t.is_active with
    | false => exact ⟨"Cannot assign gig to inactive tutor.", by simp [hact]⟩
    | true => exact ⟨"Cannot assign gig to blocked tutor.", by simp [hact, hbl]⟩
  · intro t g2 ht h
    unfold assignGigView validateTutorId at h
    rw [ht] at h
    cases hact : t.is_active with
    | false =>
      simp [hact] at h
    | true =>
      cases hbl : t.is_blocked with
      | true =>
        simp [hact, hbl] at h
      | false =>
        simp only [hact, hbl, Bool.not_true, Bool.false_eq_true, if_false] at h
        have hg2 := gig_save_ok_inv _ _ h
        rw [hg2]
        refine ⟨rfl, rfl, rfl, ?_⟩
        refine ⟨_, ?_, rfl⟩
        intro hc
        have hlen := congrArg String.length hc
        rw [String.length_append, String.length_append, String.length_append,
          String.length_append] at hlen
        have h2 : ("\n[" : String).length = 2 := rfl
        have h0 : ("" : String).length = 0 := rfl
        omega

/-- Witness for C7: assigning the inactive tutor (id 3) and a missing
tutor (id 9) are both rejected. -/
theorem q4k_C7_amended_witness :
    (∃ e, assignGigView tutorsC7 gigC7 3 "" "ts" = Except.error e) ∧
    (∃ e, assignGigView tutorsC7 gigC7 9 "" "ts" = Except.error e) := by
  exact ⟨(q4k_C7_amended tutorsC7 gigC7 3 "" "ts").2.1 tutorC7C rfl rfl,
    (q4k_C7_amended tutorsC7 gigC7 9 "" "ts").1 rfl⟩

/-- C8: creating an online session for a tutor succeeds exactly when no
existing session of that tutor in status scheduled / active satisfies the
half-open overlap test `existing.start < new.end ∧ existing.end >
new.start` (given a well-ordered window `start < end`). -/
theorem q4k_C8_overlap_iff (existing : List OnlineSessionRec) (tid : Nat) (s e : ℤ)
    (h : s < e) :
    (∃ tid2, validateOnlineCreate existing (some tid) s e = Except.ok tid2) ↔
      ∀ x ∈ existing, ¬ (x.tutor_id = tid ∧
        (x.status = OnlineStatus.scheduled ∨ x.status = OnlineStatus.active) ∧
        x.scheduled_start < e ∧ x.scheduled_end > s) := by
  have hse : ¬ (s ≥ e) := not_le.mpr h
  simp only [validateOnlineCreate, if_neg hse]
  cases hb : existing.any (fun x => conflictsWith x tid s e) with
  | false =>
    rw [List.any_eq_false] at hb
    simp only [Bool.false_eq_true, if_false]
    constructor
    · intro _ x hx hc
      exact absurd ((conflictsWith_eq_true x tid s e).mpr hc) (by simpa using hb x hx)
    · intro _
      exact ⟨tid, rfl⟩
  | true =>
    rw [List.any_eq_true] at hb
    obtain ⟨x, hx, hcx⟩ := hb
    simp only [if_true]
    constructor
    · rintro ⟨tid2, hok⟩
      simp at hok
    · intro hall
      exact absurd ((conflictsWith_eq_true x tid s e).mp hcx) (hall x hx)

/-- Witness for C8: against a scheduled [10:00,11:00) session (minutes
600–660), the adjacent window [11:00,12:00) is accepted and the
overlapping window [10:30,11:30) is rejected. -/
theorem q4k_C8_witness :
    (∃ tid2, validateOnlineCreate exC8 (some 1) 660 720 = Except.ok tid2) ∧
    ¬ (∃ tid2, validateOnlineCreate exC8 (some 1) 630 690 = Except.ok tid2) := by
  constructor
  · exact (q4k_C8_overlap_iff exC8 1 660 720 (by decide)).mpr (by decide)
  · intro hok
    exact absurd ((q4k_C8_overlap_iff exC8 1 630 690 (by decide)).mp hok) (by decide)

/-- C9: a gig with `total_hours_remaining = 0` reports a completion
percentage of 0, not the claimed 100: `hours_completed` returns 0 for a
zero remaining balance (Decimal truthiness), so the ratio is 0/10. -/
theorem q4k_C9_completion_zero_at_zero_remaining :
    gigC9.total_hours_remaining = 0 ∧
    gigC9.completion_percentage = 0 ∧
    ((0 : ℚ) ≠ 100) := by
  exact ⟨by decide, by decide, by decide⟩

/-- C10: a session-creation request is rejected unless the parent gig is
`active` and the requested hours do not exceed the remaining hours; every
session created through the endpoint is stored unverified with null
`verified_by` / `verified_at` (the verification fields are read-only on
the serializer), and creation leaves the gig ledger untouched. -/
theorem q4k_C10_create_requires_active_and_budget (st : LedgerState) (today : ℤ)
    (pk : Nat) (a : SessionInput) :
    (¬ (st.gig.status = GigStatus.active ∧
        a.hours_logged ≤ st.gig.total_hours_remaining) →
      ∃ e, createSessionView st today pk a = Except.error e) ∧
    (∀ res, createSessionView st today pk a = Except.ok res →
      st.gig.status = GigStatus.active ∧
      a.hours_logged ≤ st.gig.total_hours_remaining ∧
      res.sessions = st.sessions ++ [(pk,
        { session_date := a.session_date, start_time := a.start_time,
          end_time := a.end_time, hours_logged := a.hours_logged,
          session_notes := a.session_notes,
          student_attendance := a.student_attendance,
          is_verified := false, verified_by := none, verified_at := none })] ∧
      res.gig.total_hours_remaining = st.gig.total_hours_remaining) := by
  have hok : ∀ res, createSessionView st today pk a = Except.ok res →
      st.gig.status = GigStatus.active ∧
      a.hours_logged ≤ st.gig.total_hours_remaining ∧
      res.sessions = st.sessions ++ [(pk,
        { session_date := a.session_date, start_time := a.start_time,
          end_time := a.end_time, hours_logged := a.hours_logged,
          session_notes := a.session_notes,
          student_attendance := a.student_attendance,
          is_verified := false, verified_by := none, verified_at := none })] ∧
      res.gig.total_hours_remaining = st.gig.total_hours_remaining := by
    intro res h
    unfold createSessionView at h
    cases hvc : validateSessionCreate st.gig today a with
    | error e =>
      rw [hvc] at h
      simp at h
    | ok a2 =>
      rw [hvc] at h
      obtain ⟨ha2, hact, hle, hq⟩ := validateSessionCreate_ok_inv _ _ _ _ hvc
      rw [ha2] at h
      simp only [] at h
      cases hsw : GigSession.saveWith none
          { session_date := a.session_date, start_time := a.start_time,
            end_time := a.end_time, hours_logged := a.hours_logged,
            session_notes := a.session_notes,
            student_attendance := a.student_attendance,
            is_verified := false, verified_by := none, verified_at := none } st.gig with
      | error e =>
        rw [hsw] at h
        simp at h
      | ok p =>
        obtain ⟨ps, pg⟩ := p
        rw [hsw] at h
        simp only [Except.ok.injEq] at h
        obtain ⟨hp1, hp2⟩ := saveWith_ok_inv _ _ _ _ _ hsw
        refine ⟨hact, hle, ?_, ?_⟩
        · rw [← h]
          simp only []
          rw [hp1]
        · rw [← h]
          simp only []
          rw [hp2]
          simp [ledgerDelta]
  refine ⟨?_, hok⟩
  intro hno
  cases hE : createSessionView st today pk a with
  | error e => exact ⟨e, rfl⟩
  | ok res => exact absurd ⟨(hok res hE).1, (hok res hE).2.1⟩ hno

/-- Witness for C10: creation on a pending gig is rejected; on an active
gig the created row is stored unverified. -/
theorem q4k_C10_witness :
    (∃ e, createSessionView stC10bad 5 1 inputC10w = Except.error e) ∧
    ∀ res, createSessionView stC10w 5 1 inputC10w = Except.ok res →
      res.sessions = stC10w.sessions ++ [(1,
        { session_date := inputC10w.session_date, start_time := inputC10w.start_time,
          end_time := inputC10w.end_time, hours_logged := inputC10w.hours_logged,
          session_notes := inputC10w.session_notes,
          student_attendance := inputC10w.student_attendance,
          is_verified := false, verified_by := none, verified_at := none })] := by
  refine ⟨(q4k_C10_create_requires_active_and_budget stC10bad 5 1 inputC10w).1
    (by decide), ?_⟩
  intro res h
  exact ((q4k_C10_create_requires_active_and_budget stC10w 5 1 inputC10w).2
    res h).2.2.1

end Q4K
